import Mathlib

/-!
Verification of the bathroom-remodel scene (src/bathroom.js) against its
natural-language specification.

The source is a Three.js script that builds a fixed scene: a room shell,
lighting, and seven furnishing fixtures (vanity, toilet, mirror, vanity
light, cabinet, towel ring), each constructed procedurally from literal
dimensions and registered on a global scene object.

The embedding below works over exact rationals.  Geometry bounding boxes
follow Three.js semantics: each geometry constructor has an axis-aligned
bounding box determined by its literal parameters, a mesh transform is a
rotation about the mesh origin followed by a translation, and the bounding
box of an object tree is the union of the transformed child boxes
(Box3.setFromObject transforms the eight corners of each child box).
All rotations appearing in the source are quarter-turn multiples except the
faucet spout (rotation.x = pi/6); for that one the cosine of the angle is
carried as a parameter constrained to [0,1] (sin (pi/6) = 1/2 is exact),
and the mirror frame's wavy outline carries its sine samples as a
parameter constrained to [-1,1], so every theorem holds in particular at
the true trigonometric values.
-/

namespace BathroomScene

/-- Axis-aligned bounding box with rational coordinates. -/
structure Box3 where
  xmin : ℚ
  xmax : ℚ
  ymin : ℚ
  ymax : ℚ
  zmin : ℚ
  zmax : ℚ
deriving DecidableEq, Repr

/-- Minimum of a list of rationals (0 for the empty list; every use below
is on a non-empty literal list). -/
def listMin : List ℚ → ℚ
  | [] => 0
  | [a] => a
  | a :: b :: r => min a (listMin (b :: r))

/-- Maximum of a list of rationals (0 for the empty list). -/
def listMax : List ℚ → ℚ
  | [] => 0
  | [a] => a
  | a :: b :: r => max a (listMax (b :: r))

/-- Geometry bounding box of THREE.BoxGeometry(w, h, d): centered at the origin. -/
def boxGeometry (w h d : ℚ) : Box3 :=
  ⟨-(w / 2), w / 2, -(h / 2), h / 2, -(d / 2), d / 2⟩

/-- Geometry bounding box of THREE.CylinderGeometry(rTop, rBot, h, _): the axis
is the y axis, so x and z extend to the larger radius. -/
def cylinderGeometry (rTop rBot h : ℚ) : Box3 :=
  ⟨-(max rTop rBot), max rTop rBot, -(h / 2), h / 2, -(max rTop rBot), max rTop rBot⟩

/-- Geometry bounding box of THREE.SphereGeometry(r, _, _). -/
def sphereGeometry (r : ℚ) : Box3 := ⟨-r, r, -r, r, -r, r⟩

/-- Geometry bounding box of THREE.PlaneGeometry(w, h): a rectangle in the
z = 0 plane. -/
def planeGeometry (w h : ℚ) : Box3 := ⟨-(w / 2), w / 2, -(h / 2), h / 2, 0, 0⟩

/-- Geometry bounding box of THREE.TorusGeometry(R, r, _, _): the ring lies in
the x-y plane with tube radius r out of plane. -/
def torusGeometry (R r : ℚ) : Box3 := ⟨-(R + r), R + r, -(R + r), R + r, -r, r⟩

/-- Geometry bounding box of THREE.LatheGeometry(pts, segments): the (x, y)
profile is revolved about the y axis.  Every lathe in the source uses a
segment count divisible by 4 and nonnegative profile radii, so the x and z
extents are exactly plus/minus the largest profile radius and the y extent
is the profile's y range. -/
def latheGeometry (pts : List (ℚ × ℚ)) : Box3 :=
  ⟨-(listMax (pts.map Prod.fst)), listMax (pts.map Prod.fst),
    listMin (pts.map Prod.snd), listMax (pts.map Prod.snd),
    -(listMax (pts.map Prod.fst)), listMax (pts.map Prod.fst)⟩

/-- A planar rectangle bound for a 2D shape outline. -/
structure Rect2 where
  xmin : ℚ
  xmax : ℚ
  ymin : ℚ
  ymax : ℚ
deriving DecidableEq, Repr

/-- Geometry bounding box of THREE.ExtrudeGeometry without bevel: the shape's
rectangle swept along z over [0, depth]. -/
def extrudeGeometry (s : Rect2) (depth : ℚ) : Box3 :=
  ⟨s.xmin, s.xmax, s.ymin, s.ymax, 0, depth⟩

/-- Geometry bounding box of THREE.ExtrudeGeometry with bevel: the bevel
extends the outline outward by bevelSize and the solid beyond both flat ends
by bevelThickness. -/
def extrudeGeometryBevel (s : Rect2) (depth bevelSize bevelThickness : ℚ) : Box3 :=
  ⟨s.xmin - bevelSize, s.xmax + bevelSize, s.ymin - bevelSize, s.ymax + bevelSize,
    -bevelThickness, depth + bevelThickness⟩

/-- Rectangle bound of an ellipse path of radii a (x) and b (y); the curve
sampling (12 divisions, a multiple of 4) hits all four extreme points
exactly. -/
def ellipseRect (a b : ℚ) : Rect2 := ⟨-a, a, -b, b⟩

/-- Rotation about the x axis by q quarter turns acting on a bounding box
(the corner set of the box is rotated; Rx(t): y goes to y cos t - z sin t,
z goes to y sin t + z cos t). -/
def rotX (q : Fin 4) (b : Box3) : Box3 :=
  match q with
  | 0 => b
  | 1 => ⟨b.xmin, b.xmax, -b.zmax, -b.zmin, b.ymin, b.ymax⟩
  | 2 => ⟨b.xmin, b.xmax, -b.ymax, -b.ymin, -b.zmax, -b.zmin⟩
  | 3 => ⟨b.xmin, b.xmax, b.zmin, b.zmax, -b.ymax, -b.ymin⟩

/-- Rotation about the y axis by q quarter turns acting on a bounding box
(Ry(t): x goes to x cos t + z sin t, z goes to -x sin t + z cos t). -/
def rotY (q : Fin 4) (b : Box3) : Box3 :=
  match q with
  | 0 => b
  | 1 => ⟨b.zmin, b.zmax, b.ymin, b.ymax, -b.xmax, -b.xmin⟩
  | 2 => ⟨-b.xmax, -b.xmin, b.ymin, b.ymax, -b.zmax, -b.zmin⟩
  | 3 => ⟨-b.zmax, -b.zmin, b.ymin, b.ymax, b.xmin, b.xmax⟩

/-- Rotation about the z axis by q quarter turns acting on a bounding box
(Rz(t): x goes to x cos t - y sin t, y goes to x sin t + y cos t). -/
def rotZ (q : Fin 4) (b : Box3) : Box3 :=
  match q with
  | 0 => b
  | 1 => ⟨-b.ymax, -b.ymin, b.xmin, b.xmax, b.zmin, b.zmax⟩
  | 2 => ⟨-b.xmax, -b.xmin, -b.ymax, -b.ymin, b.zmin, b.zmax⟩
  | 3 => ⟨b.ymin, b.ymax, -b.xmax, -b.xmin, b.zmin, b.zmax⟩

/-- Rotation about the x axis by an angle with cosine c and sine s, acting on
a bounding box by transforming its eight corners (Box3.applyMatrix4
semantics): the new y range is the range of y*c - z*s over the corners and
the new z range is the range of y*s + z*c. -/
def rotXcs (c s : ℚ) (b : Box3) : Box3 :=
  ⟨b.xmin, b.xmax,
    listMin [b.ymin * c - b.zmin * s, b.ymin * c - b.zmax * s,
             b.ymax * c - b.zmin * s, b.ymax * c - b.zmax * s],
    listMax [b.ymin * c - b.zmin * s, b.ymin * c - b.zmax * s,
             b.ymax * c - b.zmin * s, b.ymax * c - b.zmax * s],
    listMin [b.ymin * s + b.zmin * c, b.ymin * s + b.zmax * c,
             b.ymax * s + b.zmin * c, b.ymax * s + b.zmax * c],
    listMax [b.ymin * s + b.zmin * c, b.ymin * s + b.zmax * c,
             b.ymax * s + b.zmin * c, b.ymax * s + b.zmax * c]⟩

/-- Translation of a bounding box by (px, py, pz). -/
def translate (b : Box3) (px py pz : ℚ) : Box3 :=
  ⟨b.xmin + px, b.xmax + px, b.ymin + py, b.ymax + py, b.zmin + pz, b.zmax + pz⟩

/-- Union (per-axis min/max envelope) of a list of bounding boxes, as
Box3.setFromObject computes over all descendants. -/
def unionList (l : List Box3) : Box3 :=
  ⟨listMin (l.map Box3.xmin), listMax (l.map Box3.xmax),
    listMin (l.map Box3.ymin), listMax (l.map Box3.ymax),
    listMin (l.map Box3.zmin), listMax (l.map Box3.zmax)⟩

/-- Room length in inches (bathroom.js line 112). -/
def LENGTH : ℚ := 102

/-- Room width in inches (line 113). -/
def WIDTH : ℚ := 32

/-- Room height in inches (line 114). -/
def HEIGHT : ℚ := 108

/-- The floor plane's y coordinate: createRoom sets floor.position.y = 0
(line 169). -/
def floorY : ℚ := 0

/-!
createVanity (bathroom.js lines 241-370).  Constants from the source:
sideThickness = 1, sideHeight = 34, sideDepth = 22.5, halfWidth = 12,
drawerCount = 3, drawerHeight = 34/3, drawerFrontThickness = 0.7,
drawerFrontWidth = 24 - 2 - 2 = 20, slatCount = 28, slatSpacing = 20/28,
slatDepth = 0.4.  The vanity group is positioned at
(0, 0, -LENGTH/2 + 11.25).  The faucet spout is rotated about x by pi/6;
its cosine is the parameter c below, and sin (pi/6) = 1/2 exactly.
-/

/-- Left side panel: BoxGeometry(1, 34, 22.5) at (-12 + 0.5, 17, 0). -/
def leftPanelBox : Box3 := translate (boxGeometry 1 34 (45 / 2)) (-(23 / 2)) 17 0

/-- Right side panel: BoxGeometry(1, 34, 22.5) at (12 - 0.5, 17, 0). -/
def rightPanelBox : Box3 := translate (boxGeometry 1 34 (45 / 2)) (23 / 2) 17 0

/-- Back panel: BoxGeometry(22, 32, 0.5) at (0, 16, -11.25 + 0.25). -/
def backPanelBox : Box3 := translate (boxGeometry 22 32 (1 / 2)) 0 16 (-11)

/-- Tapered leg: CylinderGeometry(1.2, 0.8, 6, 24) at (x, 3, z); the four
(x, z) pairs are (-10, -9.25), (10, -9.25), (-10, 9.25), (10, 9.25). -/
def vanityLegBox (x z : ℚ) : Box3 := translate (cylinderGeometry (6 / 5) (4 / 5) 6) x 3 z

/-- Drawer front i (i = 0, 1, 2): BoxGeometry(20, 34/3 - 2, 0.7) at
(0, i * 34/3 + 17/3, 11.25 - 0.35). -/
def drawerFrontBox (i : ℕ) : Box3 :=
  translate (boxGeometry 20 (34 / 3 - 2) (7 / 10)) 0 ((i : ℚ) * (34 / 3) + 17 / 3) (109 / 10)

/-- Fluted slat s of drawer i: BoxGeometry(20/28 * 0.9, 34/3 - 2.5, 0.4),
child of drawer front i at relative (-10 + 20/28 * (s + 0.5), 0, 0.35 - 0.2),
hence world position (-10 + 5/7 * (s + 1/2), i * 34/3 + 17/3, 221/20). -/
def drawerSlatBox (i s : ℕ) : Box3 :=
  translate (boxGeometry (9 / 14) (34 / 3 - 5 / 2) (2 / 5))
    (-10 + 5 / 7 * ((s : ℚ) + 1 / 2)) ((i : ℚ) * (34 / 3) + 17 / 3) (221 / 20)

/-- Knob of drawer i: SphereGeometry(0.5), child of drawer front i at relative
(0, 0, 0.35 + 0.3), hence world (0, i * 34/3 + 17/3, 231/20). -/
def drawerKnobBox (i : ℕ) : Box3 :=
  translate (sphereGeometry (1 / 2)) 0 ((i : ℚ) * (34 / 3) + 17 / 3) (231 / 20)

/-- Countertop: BoxGeometry(25, 1.5, 23.5) at (0, 35.75, 0). -/
def counterBox : Box3 := translate (boxGeometry 25 (3 / 2) (47 / 2)) 0 (143 / 4) 0

/-- Integrated sink: CylinderGeometry(7, 6.5, 2.5, 32) at (0, 36.25, 0). -/
def sinkBox : Box3 := translate (cylinderGeometry 7 (13 / 2) (5 / 2)) 0 (145 / 4) 0

/-- Sink drain: CylinderGeometry(0.5, 0.5, 0.5, 16) at (0, 35.5, 0). -/
def drainBox : Box3 := translate (cylinderGeometry (1 / 2) (1 / 2) (1 / 2)) 0 (71 / 2) 0

/-- Faucet spout: CylinderGeometry(0.2, 0.2, 6, 16) rotated about x by pi/6
(cosine parameter c, sine 1/2), child of the faucet group at (0, 39, 0)
with relative position (0, 3, 0), hence world (0, 42, 0). -/
def spoutBox (c : ℚ) : Box3 :=
  translate (rotXcs c (1 / 2) (cylinderGeometry (1 / 5) (1 / 5) 6)) 0 42 0

/-- Faucet base: CylinderGeometry(0.4, 0.4, 1, 16) at world (0, 39, 0). -/
def faucetBaseBox : Box3 := translate (cylinderGeometry (2 / 5) (2 / 5) 1) 0 39 0

/-- Left faucet handle: CylinderGeometry(0.3, 0.3, 3, 16) rotated about z by
pi/2, at world (-2.5, 40.5, 0). -/
def leftHandleBox : Box3 :=
  translate (rotZ 1 (cylinderGeometry (3 / 10) (3 / 10) 3)) (-(5 / 2)) (81 / 2) 0

/-- Right faucet handle: same geometry rotated about z by -pi/2, at world
(2.5, 40.5, 0). -/
def rightHandleBox : Box3 :=
  translate (rotZ 3 (cylinderGeometry (3 / 10) (3 / 10) 3)) (5 / 2) (81 / 2) 0

/-- All meshes of the vanity group, in source order, as bounding boxes in the
group's local frame. -/
def vanityChildBoxes (c : ℚ) : List Box3 :=
  [leftPanelBox, rightPanelBox, backPanelBox,
   vanityLegBox (-10) (-(37 / 4)), vanityLegBox 10 (-(37 / 4)),
   vanityLegBox (-10) (37 / 4), vanityLegBox 10 (37 / 4)] ++
  (List.range 3).flatMap (fun i =>
    drawerFrontBox i :: drawerKnobBox i ::
      (List.range 28).map (fun s => drawerSlatBox i s)) ++
  [counterBox, sinkBox, drainBox, spoutBox c, faucetBaseBox, leftHandleBox, rightHandleBox]

/-- World bounding box of the vanity group: the union of its children,
translated by the group position (0, 0, -LENGTH/2 + 11.25) from line 365. -/
def vanityWorldBox (c : ℚ) : Box3 :=
  translate (unionList (vanityChildBoxes c)) 0 0 (-(LENGTH / 2) + 45 / 4)

/-!
createToilet (bathroom.js lines 373-506).  All rotations here are exact
quarter turns, so the whole model is rational.  The group is positioned at
(0, 0, LENGTH/2 - 14.5) on line 502 and then given yaw rotation.y = pi
on line 503; the position literals make no reference to the yaw or to any
bounding computation.
-/

/-- Pedestal lathe profile (lines 388-394). -/
def toiletBasePts : List (ℚ × ℚ) :=
  [(13/2, 0), (15/2, 3/10), (36/5, 1), (6, 3), (29/5, 9/2), (31/5, 15/2)]

/-- Outer bowl lathe profile (lines 403-409). -/
def bowlOuterPts : List (ℚ × ℚ) :=
  [(29/5, 15/2), (31/5, 10), (34/5, 12), (32/5, 13), (28/5, 14), (5, 31/2)]

/-- Inner bowl lathe profile (lines 416-420). -/
def bowlInnerPts : List (ℚ × ℚ) :=
  [(21/5, 38/5), (19/5, 52/5), (18/5, 25/2), (18/5, 73/5)]

/-- Rim: ellipse shape (radii 6, 4.5) extruded 0.6, rotated about x by -pi/2,
at (0, 15.5, 0). -/
def rimBox : Box3 :=
  translate (rotX 3 (extrudeGeometry (ellipseRect 6 (9/2)) (3/5))) 0 (31/2) 0

/-- Seat: ellipse (6.1, 4.6) extruded 0.4, rotated about x by -pi/2, at
(0, 16.1, 0). -/
def seatBox : Box3 :=
  translate (rotX 3 (extrudeGeometry (ellipseRect (61/10) (23/5)) (2/5))) 0 (161/10) 0

/-- Lid: ellipse (6.2, 4.7) extruded 0.5 with bevelSize 0.1 and
bevelThickness 0.1, rotated about x by -pi/2, at (0, 16.7, -0.2). -/
def lidBox : Box3 :=
  translate (rotX 3 (extrudeGeometryBevel (ellipseRect (31/5) (47/10)) (1/2) (1/10) (1/10)))
    0 (167/10) (-(1/5))

/-- Hinge: CylinderGeometry(0.25, 0.25, 1.2, 16) rotated about z by pi/2, at
(x, 16.4, -1.8) for x = -2 and x = 2. -/
def hingeBox (x : ℚ) : Box3 :=
  translate (rotZ 1 (cylinderGeometry (1/4) (1/4) (6/5))) x (82/5) (-(9/5))

/-- Tank: BoxGeometry(13, 10, 6.5) at (0, 22.5, -9.8). -/
def tankBox : Box3 := translate (boxGeometry 13 10 (13/2)) 0 (45/2) (-(49/5))

/-- Tank lid: BoxGeometry(13.2, 1.2, 6.7) at (0, 28.1, -9.8). -/
def tankLidBox : Box3 := translate (boxGeometry (66/5) (6/5) (67/10)) 0 (281/10) (-(49/5))

/-- Flush handle: CylinderGeometry(0.25, 0.25, 2.2, 16) rotated about z by
pi/2, at (6, 25, -6.7). -/
def flushHandleBox : Box3 :=
  translate (rotZ 1 (cylinderGeometry (1/4) (1/4) (11/5))) 6 25 (-(67/10))

/-- Bolt cap: SphereGeometry(0.35, 12, 12) at (x, 15.6, 4) for x = -2.5, 2.5. -/
def boltBox (x : ℚ) : Box3 := translate (sphereGeometry (7/20)) x (78/5) 4

/-- All meshes of the toilet group, in source order. -/
def toiletChildBoxes : List Box3 :=
  [latheGeometry toiletBasePts, latheGeometry bowlOuterPts, latheGeometry bowlInnerPts,
   rimBox, seatBox, lidBox, hingeBox (-2), hingeBox 2, tankBox, tankLidBox,
   flushHandleBox, boltBox (-(5/2)), boltBox (5/2)]

/-- Bounding box of the toilet group in its local frame. -/
def toiletLocalBox : Box3 := unionList toiletChildBoxes

/-- The toilet group's position, as line 502 computes it, viewed as a function
of the yaw that line 503 applies afterwards: the position is assembled from
literals only, so the yaw argument plays no role in it. -/
def toiletPlacedPosition (_ : Fin 4) : ℚ × ℚ × ℚ := (0, 0, LENGTH / 2 - 29/2)

/-- The anchor-axis offset of the placed toilet: the distance from the front
wall plane (z = LENGTH/2) to the placed group origin, as a function of the
yaw quarter turns applied after placement. -/
def toiletAnchorOffset (q : Fin 4) : ℚ := LENGTH / 2 - (toiletPlacedPosition q).2.2

/-- World bounding box of the toilet when the yaw applied after positioning
is q quarter turns; the source applies q = 2 (rotation.y = pi). -/
def toiletWorldBox (q : Fin 4) : Box3 :=
  translate (rotY q toiletLocalBox) 0 0 (LENGTH / 2 - 29/2)

/-!
createCabinet (bathroom.js lines 627-668).  The group is positioned at
(0, 60, LENGTH/2 - 5) and rotated by rotation.y = pi.
-/

/-- Cabinet body: BoxGeometry(25, 11.8, 10) at the group origin. -/
def cabinetBodyBox : Box3 := boxGeometry 25 (59/5) 10

/-- Cabinet door i (i = 0, 1): BoxGeometry(11, 9.8, 1) at
((i - 0.5) * 12, 0, 5.5). -/
def cabinetDoorBox (i : ℕ) : Box3 :=
  translate (boxGeometry 11 (49/5) 1) (((i : ℚ) - 1/2) * 12) 0 (11/2)

/-- Door knob: SphereGeometry(0.5, 16, 16), child of door i at relative
(0, 0, 0.6), hence world ((i - 0.5) * 12, 0, 6.1). -/
def cabinetKnobBox (i : ℕ) : Box3 :=
  translate (sphereGeometry (1/2)) (((i : ℚ) - 1/2) * 12) 0 (61/10)

/-- All meshes of the cabinet group. -/
def cabinetChildBoxes : List Box3 :=
  [cabinetBodyBox, cabinetDoorBox 0, cabinetKnobBox 0, cabinetDoorBox 1, cabinetKnobBox 1]

/-- World bounding box of the cabinet group: children rotated by the group
yaw (pi) and translated by the group position (0, 60, LENGTH/2 - 5). -/
def cabinetWorldBox : Box3 :=
  translate (rotY 2 (unionList cabinetChildBoxes)) 0 60 (LENGTH / 2 - 5)

/-!
createMirror (bathroom.js lines 509-577).  The wavy frame outline samples
sin (2 pi i / 24) at i = 0..24 on each of the four edges; those samples are
the parameter sigma below, constrained to [-1, 1] wherever a theorem needs
it, so the results hold at the true sine values.  frameWidth = 26,
frameHeight = 30, frameThickness = 2, waveAmplitude = 1.6, segments = 24,
inset = 3.  The group is positioned at (0, 55, -LENGTH/2 + 1).
-/

/-- Outline points of the wavy mirror frame, in source order: top edge, right
edge, bottom edge, left edge, each sampled at t = i/24 for i = 0..24. -/
def mirrorFramePts (σ : ℕ → ℚ) : List (ℚ × ℚ) :=
  (List.range 25).map (fun (i : ℕ) => (-13 + 26 * ((i : ℚ) / 24), 15 + σ i * (8/5))) ++
  (List.range 25).map (fun (i : ℕ) => (13 + σ i * (8/5), 15 - 30 * ((i : ℚ) / 24))) ++
  (List.range 25).map (fun (i : ℕ) => (13 - 26 * ((i : ℚ) / 24), -15 + σ i * (8/5))) ++
  (List.range 25).map (fun (i : ℕ) => (-13 + σ i * (8/5), -15 + 30 * ((i : ℚ) / 24)))

/-- The rectangular hole of the frame (inset 3 from the nominal outline). -/
def mirrorHolePts : List (ℚ × ℚ) :=
  [(-10, -12), (10, -12), (10, 12), (-10, 12), (-10, -12)]

/-- Rectangle bound of a sampled 2D outline. -/
def shapeRect (pts : List (ℚ × ℚ)) : Rect2 :=
  ⟨listMin (pts.map Prod.fst), listMax (pts.map Prod.fst),
   listMin (pts.map Prod.snd), listMax (pts.map Prod.snd)⟩

/-- Frame mesh: the wavy shape (outline plus hole vertices) extruded to depth
frameThickness = 2, unrotated at the group origin. -/
def mirrorFrameBox (σ : ℕ → ℚ) : Box3 :=
  extrudeGeometry (shapeRect (mirrorFramePts σ ++ mirrorHolePts)) 2

/-- Glass inset: PlaneGeometry(20, 24) at (0, 0, 2 * 0.55). -/
def mirrorGlassBox : Box3 := translate (planeGeometry 20 24) 0 0 (11/10)

/-- World bounding box of the mirror group at position (0, 55, -LENGTH/2 + 1)
from line 573. -/
def mirrorWorldBox (σ : ℕ → ℚ) : Box3 :=
  translate (unionList [mirrorFrameBox σ, mirrorGlassBox]) 0 55 (-(LENGTH / 2) + 1)

/-!
Scene registration.  Each creator function performs a fixed sequence of
top-level scene.add calls; the lists below name the added root nodes in
source order.  init (lines 682-728) first empties the scene (lines 686-688)
and then invokes the creators in a fixed order.
-/

/-- Root nodes added by setupLighting (lines 123-160): hemisphere light,
ambient light, overhead point light, vanity spotlight, the spotlight's
target, and the directional fill light. -/
def setupLighting_adds : List String :=
  ["hemiLight", "ambientLight", "overheadLight", "vanitySpot", "vanitySpotTarget",
   "fillLight"]

/-- Root nodes added by createRoom (lines 163-238). -/
def createRoom_adds : List String :=
  ["floor", "ceiling", "backWall", "frontWall", "leftWall", "rightWall",
   "backBaseboard", "frontBaseboard", "leftBaseboard", "rightBaseboard"]

/-- createVanity performs a single scene.add of the vanity group (line 366). -/
def createVanity_adds : List String := ["vanityGroup"]

/-- createToilet performs a single scene.add of the toilet group (line 504). -/
def createToilet_adds : List String := ["toiletGroup"]

/-- createMirror performs a single scene.add of the mirror group (line 575). -/
def createMirror_adds : List String := ["mirrorGroup"]

/-- createVanityLight performs a single scene.add of the light group
(line 622). -/
def createVanityLight_adds : List String := ["vanityLightGroup"]

/-- createCabinet performs a single scene.add of the cabinet group
(line 666). -/
def createCabinet_adds : List String := ["cabinetGroup"]

/-- createTowelRing performs a single scene.add of the ring mesh (line 678). -/
def createTowelRing_adds : List String := ["towelRing"]

/-- The children init builds, in call order (lines 691-706). -/
def initChildren : List String :=
  setupLighting_adds ++ createRoom_adds ++ createVanity_adds ++ createToilet_adds ++
  createMirror_adds ++ createVanityLight_adds ++ createCabinet_adds ++ createTowelRing_adds

/-- The clearing loop of init (lines 686-688): removes every existing child. -/
def clearScene (_s : List String) : List String := []

/-- Effect of one run of init on the scene children: clear, then rebuild the
fixed child list. -/
def runInit (s : List String) : List String := clearScene s ++ initChildren

/-!
Call graph of the script (for the never-invoked loader functions).
-/

/-- The named functions of bathroom.js. -/
inductive Fn
  | loadPBRTextures
  | loadEnvironmentHDR
  | setupLighting
  | createRoom
  | createVanity
  | createToilet
  | createMirror
  | createVanityLight
  | createCabinet
  | createTowelRing
  | init
  | animate
  | onMouseDown
  | onMouseMove
  | onMouseUp
  | onMouseWheel
  | onWindowResize
deriving DecidableEq, Repr

/-- Direct calls from each function body to other named functions of the
script: init calls the eight builders (lines 691-706), animate re-schedules
itself (line 732); no other body calls a named script function.  In
particular no body mentions loadPBRTextures or loadEnvironmentHDR. -/
def calls : Fn → List Fn
  | .init => [.setupLighting, .createRoom, .createVanity, .createToilet, .createMirror,
              .createVanityLight, .createCabinet, .createTowelRing]
  | .animate => [.animate]
  | _ => []

/-- Entry points: the script's top level runs init() and animate()
(lines 758-759), and the browser may fire the registered mouse and resize
handlers (lines 79-82, 749). -/
def entryPoints : List Fn :=
  [.init, .animate, .onMouseDown, .onMouseMove, .onMouseUp, .onMouseWheel, .onWindowResize]

/-- A function is invoked in some execution if it is an entry point or is
called from the body of an invoked function. -/
inductive Invoked : Fn → Prop
  | entry (f : Fn) : f ∈ entryPoints → Invoked f
  | called (f g : Fn) : Invoked g → f ∈ calls g → Invoked f

/-- The set of functions reachable from the entry points. -/
def reachableFns : List Fn :=
  [.init, .animate, .onMouseDown, .onMouseMove, .onMouseUp, .onMouseWheel, .onWindowResize,
   .setupLighting, .createRoom, .createVanity, .createToilet, .createMirror,
   .createVanityLight, .createCabinet, .createTowelRing]

/-- The scene environment: unset at startup, the PMREM-generated default
after setupLighting (line 129), an HDR texture only if loadEnvironmentHDR's
success callback ever ran (line 48). -/
inductive EnvState
  | unset
  | pmremDefault
  | hdrTexture
deriving DecidableEq, Repr

/-- The shared oak material's observable state: its color and which texture
slots have been filled (line 10 initialises color 0xD2B48C and no maps). -/
structure OakMaterial where
  color : ℕ
  hasMap : Bool
  hasNormalMap : Bool
  hasRoughnessMap : Bool
  hasAoMap : Bool
deriving DecidableEq, Repr

/-- The oak material as line 10 constructs it: flat color 0xD2B48C = 13808780
and no texture maps. -/
def oakInitial : OakMaterial := ⟨0xD2B48C, false, false, false, false⟩

/-- Effect of running one named function on the oak material: only
loadPBRTextures touches it, filling each texture slot whose load succeeds
(texOk gives the four load outcomes); every failure keeps the fallback
color (lines 21-36). -/
def oakEffect (texOk : Fin 4 → Bool) : Fn → OakMaterial → OakMaterial
  | .loadPBRTextures, m =>
      { m with
        hasMap := m.hasMap || texOk 0,
        hasNormalMap := m.hasNormalMap || texOk 1,
        hasRoughnessMap := m.hasRoughnessMap || texOk 2,
        hasAoMap := m.hasAoMap || texOk 3 }
  | _, m => m

/-- Effect of running one named function on the scene environment:
setupLighting installs the PMREM default; loadEnvironmentHDR installs the
HDR texture if its load succeeds; nothing else touches it. -/
def envEffect (hdrOk : Bool) : Fn → EnvState → EnvState
  | .setupLighting, _ => .pmremDefault
  | .loadEnvironmentHDR, e => if hdrOk then .hdrTexture else e
  | _, e => e

/-- The oak material after executing a trace of function runs. -/
def finalOak (texOk : Fin 4 → Bool) (trace : List Fn) : OakMaterial :=
  trace.foldl (fun m f => oakEffect texOk f m) oakInitial

/-- The scene environment after executing a trace of function runs. -/
def finalEnv (hdrOk : Bool) (trace : List Fn) : EnvState :=
  trace.foldl (fun e f => envEffect hdrOk f e) .unset

/-!
Spec-modelled components.  The spec's Asset Locator, Scaling Policy Engine
and Fallback Synthesizer have no implementation under src/ — the script
builds every fixture procedurally from literal dimensions (the nearest code,
loadPBRTextures, loads four distinct texture slots independently rather than
candidates for one asset).  These components are therefore modelled from the
spec's words (sections 3, 4.1, 4.3, 4.5, 7) and the corresponding claims are
settled against these models.
-/

/-- Modelled from the spec: a width/height/depth triple of real-world
dimensions (the target footprint, a native bounding size, or a scale
vector). -/
structure Size3 where
  w : ℚ
  h : ℚ
  d : ℚ
deriving DecidableEq, Repr

/-- Modelled from the spec: ScalingMode is the fixed, closed set of the four
named scaling policies (section 3). -/
inductive ScalingMode
  | exactPerAxis
  | uniformByWidth
  | uniformByHeight
  | uniformByDepth
deriving DecidableEq, Repr

/-- Modelled from the spec: AxisRemap declares which native axis corresponds
to room width, height and depth (section 3). -/
structure AxisRemap where
  wAxis : Fin 3
  hAxis : Fin 3
  dAxis : Fin 3
deriving DecidableEq, Repr

/-- The identity remap: native x is room width, native y is room height,
native z is room depth. -/
def identityRemap : AxisRemap := ⟨0, 1, 2⟩

/-- The native extent along one of the three native axes. -/
def axisExtent (n : Size3) : Fin 3 → ℚ
  | 0 => n.w
  | 1 => n.h
  | 2 => n.d

/-- Modelled from the spec: the DegenerateExtent guard (section 7) — a zero
native extent used as a scaling denominator is replaced by a unit extent
rather than divided by. -/
def guardExtent (e : ℚ) : ℚ := if e = 0 then 1 else e

/-- Modelled from the spec: the Scaling Policy Engine (section 4.3).
ExactPerAxis maps each native axis independently onto the target dimension
the remap assigns it; each uniform mode computes the single scalar ratio
target-dimension over native-extent-on-the-reference-axis and applies it to
all three axes. -/
def computeScale (mode : ScalingMode) (remap : AxisRemap) (native target : Size3) : Size3 :=
  match mode with
  | .exactPerAxis =>
      ⟨target.w / guardExtent (axisExtent native remap.wAxis),
       target.h / guardExtent (axisExtent native remap.hAxis),
       target.d / guardExtent (axisExtent native remap.dAxis)⟩
  | .uniformByWidth =>
      ⟨target.w / guardExtent (axisExtent native remap.wAxis),
       target.w / guardExtent (axisExtent native remap.wAxis),
       target.w / guardExtent (axisExtent native remap.wAxis)⟩
  | .uniformByHeight =>
      ⟨target.h / guardExtent (axisExtent native remap.hAxis),
       target.h / guardExtent (axisExtent native remap.hAxis),
       target.h / guardExtent (axisExtent native remap.hAxis)⟩
  | .uniformByDepth =>
      ⟨target.d / guardExtent (axisExtent native remap.dAxis),
       target.d / guardExtent (axisExtent native remap.dAxis),
       target.d / guardExtent (axisExtent native remap.dAxis)⟩

/-- Applying a scale vector to a native size gives the final bounding size,
componentwise. -/
def applyScale (native s : Size3) : Size3 :=
  ⟨native.w * s.w, native.h * s.h, native.d * s.d⟩

/-- Modelled from the spec: the Asset Locator (section 4.1) — attempt each
candidate identifier in sequence via the loader collaborator and return the
first successful model; exhaustion signals NotFound (here: none). -/
def locate {α : Type} (loader : String → Option α) : List String → Option α
  | [] => none
  | c :: rest =>
    match loader c with
    | some m => some m
    | none => locate loader rest

/-- Modelled from the spec: the sequence of candidates the Locator actually
attempts — it stops at the first success, retries nothing and reorders
nothing. -/
def locateAttempts {α : Type} (loader : String → Option α) : List String → List String
  | [] => []
  | c :: rest =>
    match loader c with
    | some _ => [c]
    | none => c :: locateAttempts loader rest

/-- Modelled from the spec: AssetRequest (section 3) — candidate list, target
footprint, scaling mode and axis remap (yaw and anchor play no role in the
claims settled against this model). -/
structure AssetRequest where
  candidates : List String
  target : Size3
  mode : ScalingMode
  remap : AxisRemap

/-- Outcome of one fixture pipeline run. -/
structure PipelineOutcome (α : Type) where
  model : Option α
  fallbackInvocations : ℕ
  registeredNodes : ℕ
deriving DecidableEq, Repr

/-- Modelled from the spec: the per-fixture pipeline (section 2) — locate,
then register the loaded model, or on exhaustion invoke the Fallback
Synthesizer exactly once and register its single placeholder node
(section 4.5); the failure is never surfaced as an error. -/
def runFixture {α : Type} (loader : String → Option α) (req : AssetRequest) :
    PipelineOutcome α :=
  match locate loader req.candidates with
  | some m => ⟨some m, 0, 1⟩
  | none => ⟨none, 1, 1⟩

/-- Modelled from the spec: the Fallback Synthesizer's placeholder has a
native bounding size equal to the request's target footprint (section 4.5),
so the subsequent scaling step is a no-op scale of 1. -/
def placeholderNativeSize (req : AssetRequest) : Size3 := req.target

/-!
Helper theorems.
-/

theorem listMin_le_of_mem {l : List ℚ} {x : ℚ} (hx : x ∈ l) : listMin l ≤ x := by
  induction l with
  | nil => cases hx
  | cons a t ih =>
    cases t with
    | nil =>
      rcases List.mem_cons.mp hx with h | h
      · simp [listMin, h]
      · cases h
    | cons b r =>
      rcases List.mem_cons.mp hx with h | h
      · simp [listMin, h, min_le_left]
      · exact le_trans (by simp [listMin, min_le_right]) (ih h)

theorem le_listMin {l : List ℚ} {a : ℚ} (hne : l ≠ []) (h : ∀ x ∈ l, a ≤ x) :
    a ≤ listMin l := by
  induction l with
  | nil => exact absurd rfl hne
  | cons b t ih =>
    cases t with
    | nil => simpa [listMin] using h b (by simp)
    | cons c r =>
      have h1 : a ≤ b := h b (by simp)
      have h2 : a ≤ listMin (c :: r) := by
        refine ih (by simp) ?_
        intro x hx
        exact h x (List.mem_cons_of_mem _ hx)
      simpa [listMin] using And.intro h1 h2

theorem listMin4_lb {a b c d x : ℚ} (ha : x ≤ a) (hb : x ≤ b) (hc : x ≤ c) (hd : x ≤ d) :
    x ≤ listMin [a, b, c, d] := by
  simp only [listMin, le_min_iff]
  exact ⟨ha, hb, hc, hd⟩

theorem spoutBox_ymin_lb (c : ℚ) (h0 : 0 ≤ c) (h1 : c ≤ 1) : (38:ℚ) ≤ (spoutBox c).ymin := by
  have h : (spoutBox c).ymin =
      listMin [(-3) * c - (-(1/5)) * (1/2), (-3) * c - (1/5) * (1/2),
               3 * c - (-(1/5)) * (1/2), 3 * c - (1/5) * (1/2)] + 42 := by
    norm_num [spoutBox, rotXcs, cylinderGeometry, translate]
  rw [h, show (38:ℚ) = -4 + 42 by norm_num]
  exact add_le_add_right
    (listMin4_lb (by linarith) (by linarith) (by linarith) (by linarith)) 42

/-- The lowest geometry point of the placed vanity sits exactly on the floor:
the side panels and legs reach y = 0 and every other part lies above. -/
theorem vanity_ymin (c : ℚ) (h0 : 0 ≤ c) (h1 : c ≤ 1) : (vanityWorldBox c).ymin = 0 := by
  have hle : (unionList (vanityChildBoxes c)).ymin ≤ 0 := by
    refine listMin_le_of_mem (List.mem_map.mpr ⟨leftPanelBox, ?_, ?_⟩)
    · simp [vanityChildBoxes]
    · norm_num [leftPanelBox, boxGeometry, translate]
  have hge : (0:ℚ) ≤ (unionList (vanityChildBoxes c)).ymin := by
    refine le_listMin ?_ ?_
    · simp [vanityChildBoxes]
    · intro x hx
      rcases List.mem_map.mp hx with ⟨b, hb, rfl⟩
      unfold vanityChildBoxes at hb
      rcases List.mem_append.mp hb with hb | hb
      rcases List.mem_append.mp hb with hb | hb
      · fin_cases hb <;>
          norm_num [leftPanelBox, rightPanelBox, backPanelBox, vanityLegBox,
            boxGeometry, cylinderGeometry, translate]
      · rcases List.mem_flatMap.mp hb with ⟨i, hi, hmem⟩
        rcases List.mem_cons.mp hmem with h | hmem
        · subst h
          simp only [drawerFrontBox, boxGeometry, translate]
          ring_nf
          positivity
        rcases List.mem_cons.mp hmem with h | hmem
        · subst h
          simp only [drawerKnobBox, sphereGeometry, translate]
          ring_nf
          positivity
        · rcases List.mem_map.mp hmem with ⟨s, hs, h⟩
          subst h
          simp only [drawerSlatBox, boxGeometry, translate]
          ring_nf
          positivity
      · fin_cases hb <;>
          first
          | linarith [spoutBox_ymin_lb c h0 h1]
          | norm_num [counterBox, sinkBox, drainBox, faucetBaseBox, leftHandleBox,
              rightHandleBox, boxGeometry, cylinderGeometry, rotZ, translate]
  have hw : (vanityWorldBox c).ymin = (unionList (vanityChildBoxes c)).ymin := by
    simp [vanityWorldBox, translate]
  rw [hw]
  exact le_antisymm hle hge

/-- The mirror hangs on the wall: for any admissible wave samples, the lowest
point of its bounding volume is at least y = 192/5 = 38.4, far above the
floor. -/
theorem mirror_ymin_lb (σ : ℕ → ℚ) (h : ∀ i, -1 ≤ σ i ∧ σ i ≤ 1) :
    (192:ℚ)/5 ≤ (mirrorWorldBox σ).ymin := by
  have hframe : (-(83:ℚ)/5) ≤ (mirrorFrameBox σ).ymin := by
    refine le_listMin ?_ ?_
    · simp [mirrorFramePts, mirrorHolePts]
    · intro x hx
      rcases List.mem_map.mp hx with ⟨p, hp, rfl⟩
      rcases List.mem_append.mp hp with hp | hp
      · unfold mirrorFramePts at hp
        rcases List.mem_append.mp hp with hp | hp
        rcases List.mem_append.mp hp with hp | hp
        rcases List.mem_append.mp hp with hp | hp
        · rcases List.mem_map.mp hp with ⟨i, hi, rfl⟩
          have := (h i).1
          simp only
          linarith
        · rcases List.mem_map.mp hp with ⟨i, hi, rfl⟩
          have hi25 : i < 25 := List.mem_range.mp hi
          have hic : (i : ℚ) ≤ 24 := by exact_mod_cast Nat.lt_succ_iff.mp hi25
          simp only
          linarith
        · rcases List.mem_map.mp hp with ⟨i, hi, rfl⟩
          have := (h i).1
          simp only
          linarith
        · rcases List.mem_map.mp hp with ⟨i, hi, rfl⟩
          have hi0 : (0:ℚ) ≤ (i : ℚ) := Nat.cast_nonneg i
          simp only
          linarith
      · fin_cases hp <;> norm_num
  have hglass : (mirrorGlassBox).ymin = -12 := by
    norm_num [mirrorGlassBox, planeGeometry, translate]
  have hmain : (-(83:ℚ)/5) ≤ (unionList [mirrorFrameBox σ, mirrorGlassBox]).ymin := by
    refine le_listMin (by simp) ?_
    intro x hx
    rcases List.mem_map.mp hx with ⟨b, hb, rfl⟩
    rcases List.mem_cons.mp hb with hB | hb
    · subst hB; exact le_trans (by norm_num) hframe
    rcases List.mem_cons.mp hb with hB | hb
    · subst hB; rw [hglass]; norm_num
    · cases hb
  show (192:ℚ)/5 ≤ (unionList [mirrorFrameBox σ, mirrorGlassBox]).ymin + 55
  linarith

/-- The toilet stands on the floor: the pedestal profile starts at y = 0 and
every other part lies above, so the placed group's bounding minimum is 0. -/
theorem toilet_ymin : (toiletWorldBox 2).ymin = 0 := by
  norm_num [toiletWorldBox, toiletLocalBox, toiletChildBoxes, unionList, rotY, translate,
    latheGeometry, toiletBasePts, bowlOuterPts, bowlInnerPts, rimBox, seatBox, lidBox,
    hingeBox, tankBox, tankLidBox, flushHandleBox, boltBox, boxGeometry, cylinderGeometry,
    sphereGeometry, extrudeGeometry, extrudeGeometryBevel, ellipseRect, rotX, rotZ,
    listMin, listMax, min_def, max_def]

theorem invoked_mem_reachable {f : Fn} (h : Invoked f) : f ∈ reachableFns := by
  induction h with
  | entry f hf =>
    have hsub : ∀ x ∈ entryPoints, x ∈ reachableFns := by decide
    exact hsub f hf
  | called f g _ hf ih =>
    have hclosed : ∀ y ∈ reachableFns, ∀ x ∈ calls y, x ∈ reachableFns := by decide
    exact hclosed g ih f hf

theorem oakEffect_other (texOk : Fin 4 → Bool) (f : Fn) (m : OakMaterial)
    (hf : f ≠ .loadPBRTextures) : oakEffect texOk f m = m := by
  cases f <;> first | rfl | exact absurd rfl hf

theorem envEffect_other (hdrOk : Bool) (f : Fn) (e : EnvState)
    (h1 : f ≠ .setupLighting) (h2 : f ≠ .loadEnvironmentHDR) :
    envEffect hdrOk f e = e := by
  cases f <;> first | rfl | exact absurd rfl h1 | exact absurd rfl h2

theorem foldl_oak_const (texOk : Fin 4 → Bool) (trace : List Fn)
    (htr : Fn.loadPBRTextures ∉ trace) (m : OakMaterial) :
    trace.foldl (fun m f => oakEffect texOk f m) m = m := by
  induction trace generalizing m with
  | nil => rfl
  | cons f rest ih =>
    have hf : f ≠ .loadPBRTextures := fun h => htr (h ▸ List.mem_cons_self f rest)
    have hrest : Fn.loadPBRTextures ∉ rest := fun h => htr (List.mem_cons_of_mem f h)
    simp only [List.foldl_cons, oakEffect_other texOk f m hf]
    exact ih hrest m

theorem foldl_env_pmrem (hdrOk : Bool) (trace : List Fn)
    (htr : Fn.loadEnvironmentHDR ∉ trace) (e : EnvState) :
    trace.foldl (fun e f => envEffect hdrOk f e) e =
      if Fn.setupLighting ∈ trace then EnvState.pmremDefault else e := by
  induction trace generalizing e with
  | nil => simp
  | cons f rest ih =>
    have hrest : Fn.loadEnvironmentHDR ∉ rest := fun h => htr (List.mem_cons_of_mem f h)
    rw [List.foldl_cons, ih hrest (envEffect hdrOk f e)]
    by_cases hsl : f = .setupLighting
    · subst hsl
      simp [envEffect]
    · have hhdr : f ≠ .loadEnvironmentHDR :=
        fun h => htr (List.mem_cons.mpr (Or.inl h.symm))
      rw [envEffect_other hdrOk f e hsl hhdr]
      have hmem : (Fn.setupLighting ∈ f :: rest) ↔ (Fn.setupLighting ∈ rest) := by
        rw [List.mem_cons]
        constructor
        · rintro (h | h)
          · exact absurd h.symm hsl
          · exact h
        · exact Or.inr
      simp [hmem]

theorem guardExtent_pos {e : ℚ} (he : 0 ≤ e) : 0 < guardExtent e := by
  unfold guardExtent
  split
  · norm_num
  · exact lt_of_le_of_ne he (Ne.symm (by assumption))

theorem axisExtent_nonneg {n : Size3} (hw : 0 ≤ n.w) (hh : 0 ≤ n.h) (hd : 0 ≤ n.d)
    (a : Fin 3) : 0 ≤ axisExtent n a := by
  fin_cases a <;> simpa [axisExtent]

theorem locate_all_fail {α : Type} (loader : String → Option α)
    (hl : ∀ s, loader s = none) : ∀ cs, locate loader cs = none := by
  intro cs
  induction cs with
  | nil => rfl
  | cons c rest ih => simp [locate, hl c, ih]

theorem locateAttempts_takes_prefix {α : Type} (loader : String → Option α) :
    ∀ cs : List String, ∃ t, cs = locateAttempts loader cs ++ t := by
  intro cs
  induction cs with
  | nil => exact ⟨[], rfl⟩
  | cons c rest ih =>
    cases hc : loader c with
    | some m => exact ⟨rest, by simp [locateAttempts, hc]⟩
    | none =>
      rcases ih with ⟨t, ht⟩
      exact ⟨t, by simpa [locateAttempts, hc] using ht⟩

/-!
Claim theorems.
-/

/-- C1 (counterexample): the floor-contact claim fails as stated — the
cabinet is a fixture placement whose final bounding volume has its
vertical-axis minimum at y = 54.1, not at the floor coordinate y = 0 (the
cabinet group is mounted at height 60 on the front wall). -/
theorem C1_floor_contact_counterexample :
    cabinetWorldBox.ymin = 541/10 ∧ cabinetWorldBox.ymin ≠ floorY := by
  norm_num [cabinetWorldBox, cabinetChildBoxes, cabinetBodyBox, cabinetDoorBox,
    cabinetKnobBox, unionList, rotY, translate, boxGeometry, sphereGeometry,
    listMin, listMax, min_def, max_def, floorY]

/-- C1 (amended): floor-standing fixtures do satisfy the floor-contact
invariant — the placed vanity's and toilet's bounding minima on the vertical
axis equal the floor coordinate exactly — while wall-mounted fixtures such as
the mirror hang strictly above the floor, for every admissible value of the
trigonometric parameters. -/
theorem C1_floor_contact_amended (c : ℚ) (σ : ℕ → ℚ) (hc0 : 0 ≤ c) (hc1 : c ≤ 1)
    (hσ : ∀ i, -1 ≤ σ i ∧ σ i ≤ 1) :
    (vanityWorldBox c).ymin = floorY ∧ (toiletWorldBox 2).ymin = floorY ∧
    floorY < (mirrorWorldBox σ).ymin := by
  refine ⟨?_, ?_, ?_⟩
  · simpa [floorY] using vanity_ymin c hc0 hc1
  · simpa [floorY] using toilet_ymin
  · have := mirror_ymin_lb σ hσ
    simp only [floorY]
    linarith

/-- C1 (witness): the amended floor-contact theorem instantiated at the
concrete parameter values c = 7/8 and the zero wave table. -/
theorem C1_floor_contact_witness :
    (vanityWorldBox (7/8)).ymin = floorY ∧ (toiletWorldBox 2).ymin = floorY ∧
    floorY < (mirrorWorldBox (fun _ => 0)).ymin :=
  C1_floor_contact_amended (7/8) (fun _ => 0) (by norm_num) (by norm_num)
    (fun i => by norm_num)

/-- C2 (counterexample): introducing a 90-degree yaw on the placed toilet
does not change the anchor-axis offset (the code's position is a literal,
not derived from any recomputed bounding size), even though the toilet is
asymmetric: its post-rotation bounding maximum on the anchor axis differs
between the two yaws. -/
theorem C2_anchor_offset_counterexample :
    toiletAnchorOffset 3 = toiletAnchorOffset 2 ∧
    (toiletWorldBox 3).zmax ≠ (toiletWorldBox 2).zmax := by
  constructor
  · rfl
  · norm_num [toiletWorldBox, toiletLocalBox, toiletChildBoxes, unionList, rotY, translate,
      latheGeometry, toiletBasePts, bowlOuterPts, bowlInnerPts, rimBox, seatBox, lidBox,
      hingeBox, tankBox, tankLidBox, flushHandleBox, boltBox, boxGeometry, cylinderGeometry,
      sphereGeometry, extrudeGeometry, extrudeGeometryBevel, ellipseRect, rotX, rotZ,
      listMin, listMax, min_def, max_def]

/-- C2 (amended): the code assembles the toilet's position from literals
before applying its yaw, so the anchor-axis offset is the constant 14.5 for
every yaw, while the post-rotation bounding extent on the anchor axis does
change when the yaw changes by 90 degrees: the offset is not computed from
any post-rotation (or pre-rotation) bounding size. -/
theorem C2_anchor_offset_amended :
    (∀ q : Fin 4, toiletPlacedPosition q = (0, 0, LENGTH / 2 - 29/2) ∧
      toiletAnchorOffset q = 29/2) ∧
    (toiletWorldBox 3).zmax - (toiletWorldBox 3).zmin ≠
      (toiletWorldBox 2).zmax - (toiletWorldBox 2).zmin := by
  constructor
  · intro q
    exact ⟨rfl, by norm_num [toiletAnchorOffset, toiletPlacedPosition, LENGTH]⟩
  · norm_num [toiletWorldBox, toiletLocalBox, toiletChildBoxes, unionList, rotY, translate,
      latheGeometry, toiletBasePts, bowlOuterPts, bowlInnerPts, rimBox, seatBox, lidBox,
      hingeBox, tankBox, tankLidBox, flushHandleBox, boltBox, boxGeometry, cylinderGeometry,
      sphereGeometry, extrudeGeometry, extrudeGeometryBevel, ellipseRect, rotX, rotZ,
      listMin, listMax, min_def, max_def]

/-- C3: ExactPerAxis scaling of a model of native size (2, 4, 1) to the
target footprint (24, 34, 22.5) under the identity axis remap yields the
scale vector (12, 8.5, 22.5), and applying that scale gives the final size
exactly (24, 34, 22.5). -/
theorem C3_exactPerAxis_example :
    computeScale .exactPerAxis identityRemap ⟨2, 4, 1⟩ ⟨24, 34, 45/2⟩ = ⟨12, 17/2, 45/2⟩ ∧
    applyScale ⟨2, 4, 1⟩
      (computeScale .exactPerAxis identityRemap ⟨2, 4, 1⟩ ⟨24, 34, 45/2⟩) = ⟨24, 34, 45/2⟩ := by
  constructor <;>
    norm_num [computeScale, identityRemap, axisExtent, guardExtent, applyScale]

/-- C4: UniformByHeight scaling of a model of native size (2, 4, 1) to
target height 34 yields the single scalar 8.5 on all three axes (whatever
the advisory width and depth targets are) and the final size (17, 34, 8.5);
moreover every uniform mode always produces a scale vector with all three
components equal. -/
theorem C4_uniformByHeight_example :
    (∀ tw td : ℚ,
      computeScale .uniformByHeight identityRemap ⟨2, 4, 1⟩ ⟨tw, 34, td⟩ =
        ⟨17/2, 17/2, 17/2⟩ ∧
      applyScale ⟨2, 4, 1⟩
        (computeScale .uniformByHeight identityRemap ⟨2, 4, 1⟩ ⟨tw, 34, td⟩) =
          ⟨17, 34, 17/2⟩) ∧
    (∀ (remap : AxisRemap) (native target : Size3),
      ((computeScale .uniformByWidth remap native target).w =
          (computeScale .uniformByWidth remap native target).h ∧
        (computeScale .uniformByWidth remap native target).h =
          (computeScale .uniformByWidth remap native target).d) ∧
      ((computeScale .uniformByHeight remap native target).w =
          (computeScale .uniformByHeight remap native target).h ∧
        (computeScale .uniformByHeight remap native target).h =
          (computeScale .uniformByHeight remap native target).d) ∧
      ((computeScale .uniformByDepth remap native target).w =
          (computeScale .uniformByDepth remap native target).h ∧
        (computeScale .uniformByDepth remap native target).h =
          (computeScale .uniformByDepth remap native target).d)) := by
  constructor
  · intro tw td
    constructor <;>
      norm_num [computeScale, identityRemap, axisExtent, guardExtent, applyScale]
  · intro remap native target
    exact ⟨⟨rfl, rfl⟩, ⟨rfl, rfl⟩, ⟨rfl, rfl⟩⟩

/-- C5: for every scaling mode, axis remap, nonnegative native size and
strictly positive target footprint, every component of the resulting scale
vector is strictly positive — a zero native extent is replaced by a unit
extent rather than divided by, so no non-finite scale value arises. -/
theorem C5_scale_positive (mode : ScalingMode) (remap : AxisRemap) (native target : Size3)
    (htw : 0 < target.w) (hth : 0 < target.h) (htd : 0 < target.d)
    (hnw : 0 ≤ native.w) (hnh : 0 ≤ native.h) (hnd : 0 ≤ native.d) :
    0 < (computeScale mode remap native target).w ∧
    0 < (computeScale mode remap native target).h ∧
    0 < (computeScale mode remap native target).d := by
  have hpos : ∀ a, 0 < guardExtent (axisExtent native a) :=
    fun a => guardExtent_pos (axisExtent_nonneg hnw hnh hnd a)
  cases mode <;>
    exact ⟨div_pos (by assumption) (hpos _), div_pos (by assumption) (hpos _),
           div_pos (by assumption) (hpos _)⟩

/-- C5 (witness): the positivity theorem instantiated at a native size whose
height extent — the scaling denominator of UniformByHeight — is zero. -/
theorem C5_scale_positive_witness :
    0 < (computeScale .uniformByHeight identityRemap ⟨2, 0, 1⟩ ⟨24, 34, 45/2⟩).w ∧
    0 < (computeScale .uniformByHeight identityRemap ⟨2, 0, 1⟩ ⟨24, 34, 45/2⟩).h ∧
    0 < (computeScale .uniformByHeight identityRemap ⟨2, 0, 1⟩ ⟨24, 34, 45/2⟩).d :=
  C5_scale_positive .uniformByHeight identityRemap ⟨2, 0, 1⟩ ⟨24, 34, 45/2⟩
    (by norm_num) (by norm_num) (by norm_num) (by norm_num) (by norm_num) (by norm_num)

/-- C6: the Locator attempts candidates strictly in sequence and
short-circuits on the first success: with a.glb failing and b.glb
succeeding it returns b.glb's model having attempted exactly
[a.glb, b.glb] — no third candidate, whatever follows in the list — and in
general the attempted candidates are always an in-order prefix of the
candidate list (no retry, reorder or deduplication). -/
theorem C6_locator_short_circuit (α : Type) (loader : String → Option α) (m : α)
    (rest : List String)
    (ha : loader "a.glb" = none) (hb : loader "b.glb" = some m) :
    locate loader ("a.glb" :: "b.glb" :: rest) = some m ∧
    locateAttempts loader ("a.glb" :: "b.glb" :: rest) = ["a.glb", "b.glb"] ∧
    (∀ cs : List String, ∃ t, cs = locateAttempts loader cs ++ t) := by
  refine ⟨?_, ?_, locateAttempts_takes_prefix loader⟩
  · simp [locate, ha, hb]
  · simp [locateAttempts, ha, hb]

/-- C6 (witness): the short-circuit theorem instantiated at the concrete
loader that succeeds exactly on b.glb, with a third candidate c.glb
present. -/
theorem C6_locator_witness :
    locate (fun s => if s = "b.glb" then some 0 else none)
        ("a.glb" :: "b.glb" :: ["c.glb"]) = some 0 ∧
    locateAttempts (fun s => if s = "b.glb" then some 0 else none)
        ("a.glb" :: "b.glb" :: ["c.glb"]) = ["a.glb", "b.glb"] ∧
    (∀ cs : List String, ∃ t,
      cs = locateAttempts (fun s => if s = "b.glb" then some 0 else none) cs ++ t) :=
  C6_locator_short_circuit ℕ (fun s => if s = "b.glb" then some 0 else none) 0 ["c.glb"]
    (by simp) (by simp)

/-- C7: when every candidate fails to load, the pipeline invokes the
Fallback Synthesizer exactly once and registers exactly one placeholder node
(so the fixture slot is occupied, and indeed it is occupied by exactly one
node under any loader — failure is never surfaced as an error); the
placeholder's native size equals the target footprint, making the subsequent
scaling a no-op scale of (1, 1, 1). -/
theorem C7_fallback_once (α : Type) (loader : String → Option α) (req : AssetRequest)
    (hl : ∀ s, loader s = none)
    (htw : 0 < req.target.w) (hth : 0 < req.target.h) (htd : 0 < req.target.d) :
    (runFixture loader req).fallbackInvocations = 1 ∧
    (runFixture loader req).registeredNodes = 1 ∧
    computeScale req.mode identityRemap (placeholderNativeSize req) req.target = ⟨1, 1, 1⟩ ∧
    (∀ loader2 : String → Option α, (runFixture loader2 req).registeredNodes = 1) := by
  have hw' : req.target.w ≠ 0 := ne_of_gt htw
  have hh' : req.target.h ≠ 0 := ne_of_gt hth
  have hd' : req.target.d ≠ 0 := ne_of_gt htd
  refine ⟨?_, ?_, ?_, ?_⟩
  · simp [runFixture, locate_all_fail loader hl]
  · simp [runFixture, locate_all_fail loader hl]
  · cases hm : req.mode <;>
      simp [computeScale, identityRemap, axisExtent, placeholderNativeSize, guardExtent,
        hw', hh', hd', div_self]
  · intro loader2
    cases h : locate loader2 req.candidates <;> simp [runFixture, h]

/-- C7 (witness): the fallback theorem instantiated at the all-failing
loader and the vanity-shaped request. -/
theorem C7_fallback_once_witness :
    (runFixture (fun _ => (none : Option ℕ))
        ⟨["a.glb"], ⟨24, 34, 45/2⟩, .exactPerAxis, identityRemap⟩).fallbackInvocations = 1 ∧
    (runFixture (fun _ => (none : Option ℕ))
        ⟨["a.glb"], ⟨24, 34, 45/2⟩, .exactPerAxis, identityRemap⟩).registeredNodes = 1 ∧
    computeScale ScalingMode.exactPerAxis identityRemap
      (placeholderNativeSize ⟨["a.glb"], ⟨24, 34, 45/2⟩, .exactPerAxis, identityRemap⟩)
      ⟨24, 34, 45/2⟩ = ⟨1, 1, 1⟩ ∧
    (∀ loader2 : String → Option ℕ,
      (runFixture loader2
        ⟨["a.glb"], ⟨24, 34, 45/2⟩, .exactPerAxis, identityRemap⟩).registeredNodes = 1) :=
  C7_fallback_once ℕ (fun _ => none) ⟨["a.glb"], ⟨24, 34, 45/2⟩, .exactPerAxis, identityRemap⟩
    (fun _ => rfl) (by norm_num) (by norm_num) (by norm_num)

/-- C8: re-running scene initialization is deterministic and idempotent —
init clears the scene and rebuilds the identical child list whatever the
prior scene state, so two runs from any states produce bit-identical
results. -/
theorem C8_init_deterministic (s t : List String) :
    runInit (runInit s) = runInit s ∧ runInit s = runInit t ∧ runInit s = initChildren :=
  ⟨rfl, rfl, rfl⟩

/-- C8 (witness): the init theorem instantiated at concrete prior scene
states. -/
theorem C8_init_deterministic_witness :
    runInit (runInit ["stale"]) = runInit ["stale"] ∧
    runInit ["stale"] = runInit [] ∧ runInit ["stale"] = initChildren :=
  C8_init_deterministic ["stale"] []

/-- C9: every fixture-creation function registers exactly one top-level node
on the scene, and the six fixtures' registered nodes are pairwise distinct,
so their insertions are disjoint. -/
theorem C9_single_node_per_fixture :
    createVanity_adds.length = 1 ∧ createToilet_adds.length = 1 ∧
    createMirror_adds.length = 1 ∧ createVanityLight_adds.length = 1 ∧
    createCabinet_adds.length = 1 ∧ createTowelRing_adds.length = 1 ∧
    (createVanity_adds ++ createToilet_adds ++ createMirror_adds ++
      createVanityLight_adds ++ createCabinet_adds ++ createTowelRing_adds).Nodup := by
  refine ⟨rfl, rfl, rfl, rfl, rfl, rfl, ?_⟩
  simp [createVanity_adds, createToilet_adds, createMirror_adds,
    createVanityLight_adds, createCabinet_adds, createTowelRing_adds]

/-- C10: loadPBRTextures and loadEnvironmentHDR are unreachable from the
script's entry points, so in every execution trace of invoked functions the
oak material keeps its initial fallback state (flat color 0xD2B48C, no
texture maps) and the scene environment remains the PMREM-generated default
installed by setupLighting. -/
theorem C10_loaders_never_invoked (trace : List Fn) (texOk : Fin 4 → Bool) (hdrOk : Bool)
    (htrace : ∀ f ∈ trace, Invoked f) (hsl : Fn.setupLighting ∈ trace) :
    ¬ Invoked Fn.loadPBRTextures ∧ ¬ Invoked Fn.loadEnvironmentHDR ∧
    finalOak texOk trace = oakInitial ∧ finalEnv hdrOk trace = EnvState.pmremDefault := by
  have hp : ¬ Invoked Fn.loadPBRTextures := by
    intro h
    have hmem := invoked_mem_reachable h
    revert hmem
    decide
  have he : ¬ Invoked Fn.loadEnvironmentHDR := by
    intro h
    have hmem := invoked_mem_reachable h
    revert hmem
    decide
  have hpt : Fn.loadPBRTextures ∉ trace := fun hmem => hp (htrace _ hmem)
  have het : Fn.loadEnvironmentHDR ∉ trace := fun hmem => he (htrace _ hmem)
  refine ⟨hp, he, foldl_oak_const texOk trace hpt oakInitial, ?_⟩
  rw [finalEnv, foldl_env_pmrem hdrOk trace het, if_pos hsl]

/-- C10 (witness): the theorem instantiated at the concrete trace
[init, setupLighting], with all hypothetical load outcomes succeeding. -/
theorem C10_loaders_never_invoked_witness :
    ¬ Invoked Fn.loadPBRTextures ∧ ¬ Invoked Fn.loadEnvironmentHDR ∧
    finalOak (fun _ => true) [Fn.init, Fn.setupLighting] = oakInitial ∧
    finalEnv true [Fn.init, Fn.setupLighting] = EnvState.pmremDefault :=
  C10_loaders_never_invoked [Fn.init, Fn.setupLighting] (fun _ => true) true
    (by
      intro f hf
      rcases List.mem_cons.mp hf with h | hf
      · subst h
        exact Invoked.entry Fn.init (by decide)
      rcases List.mem_cons.mp hf with h | hf
      · subst h
        exact Invoked.called Fn.setupLighting Fn.init
          (Invoked.entry Fn.init (by decide)) (by decide)
      · cases hf)
    (by decide)

end BathroomScene
